import Mathlib

/-!
A shallow embedding of the `declare` package (`src/declare/_declare.py` and
`src/declare/__init__.py`): a descriptor that declares typed attributes with a
default value, an optional validator and an optional watcher.

Python values are modelled by `PyValue`.  Compound (mutable) values — the only
compound kind the verified claims exercise is the list — live on an explicit
`Heap` and are referred to by address, so that shallow copying (`copy.copy`)
and in-place mutation are expressible.  An instance's `__dict__` is an
association list from attribute-name strings to values.  Descriptor
operations are explicit state-passing functions; `__set__` additionally
returns the list of watcher invocations it performed and the exception, if
any, raised by the watcher.
-/

namespace DeclareSpec

/-- Python runtime errors that the embedded code can surface:
`declareError` models `DeclareError`, `raised n` an arbitrary exception
thrown by user callback code. -/
inductive PyErr where
  | declareError
  | raised (code : Nat)
deriving DecidableEq, Repr

/-- A Python value.  Elementary immutable kinds carry their payload directly;
a compound value (a list) is a reference `vRef a` to heap address `a`.
`vNone` is Python's `None`. -/
inductive PyValue where
  | vNone
  | vInt (n : Int)
  | vFloat (x : Rat)
  | vBool (b : Bool)
  | vStr (s : String)
  | vBytes (bs : List Nat)
  | vComplex (re im : Rat)
  | vRef (a : Nat)
deriving DecidableEq, Repr

/-- The heap of compound objects: address `a` holds the list stored in
`lists[a]`. -/
structure Heap where
  lists : List (List PyValue)
deriving DecidableEq, Repr

/-- Contents of the heap list at address `a` (empty for a dangling address). -/
def listGet (h : Heap) (a : Nat) : List PyValue :=
  h.lists.getD a []

/-- In-place mutation of a heap list: append `x` to the list at address `a`
(models `lst.append(x)`). -/
def heapAppend (h : Heap) (a : Nat) (x : PyValue) : Heap :=
  ⟨h.lists.set a (listGet h a ++ [x])⟩

/-- Python `==` on values: references compare by the contents of the lists
they point to (Python list equality), everything else structurally. -/
def pyEq (h : Heap) (a b : PyValue) : Bool :=
  match a, b with
  | .vRef i, .vRef j => decide (listGet h i = listGet h j)
  | x, y => decide (x = y)

/-- `copy.copy`: a shallow copy.  On an elementary immutable value it returns
the value itself; on a reference it allocates a fresh heap list with the same
contents and returns a reference to it. -/
def pyCopy (h : Heap) (v : PyValue) : PyValue × Heap :=
  match v with
  | .vRef a => (.vRef h.lists.length, ⟨h.lists ++ [listGet h a]⟩)
  | x => (x, h)

/-- An instance's `__dict__`: an association list from attribute names to
values (first match wins). -/
structure Obj where
  dict : List (String × PyValue)
deriving DecidableEq, Repr

/-- Attribute lookup in an instance dict (`getattr` on a plain attribute). -/
def dictGet (d : List (String × PyValue)) (k : String) : Option PyValue :=
  match d with
  | [] => none
  | (k', v) :: rest => if k' = k then some v else dictGet rest k

/-- Attribute update in an instance dict (`setattr` on a plain attribute). -/
def dictSet (d : List (String × PyValue)) (k : String) (v : PyValue) :
    List (String × PyValue) :=
  match d with
  | [] => [(k, v)]
  | (k', v') :: rest =>
      if k' = k then (k, v) :: rest else (k', v') :: dictSet rest k v

/-- A validator: `Callable[[ObjectType, ValueType], ValueType]`. -/
def Validator : Type := Obj → PyValue → PyValue

/-- A watcher: `Callable[[ObjectType, ValueType | None, ValueType], None]`.
Its unit result is modelled together with the exception it may raise. -/
def Watcher : Type := Obj → PyValue → PyValue → Option PyErr

/-- `not isinstance(default, (int, float, bool, str, complex))` from
`Declare.__init__`: whether the default must be copied per instance.
Note the tuple does not contain `bytes`. -/
def copyDefaultOf (v : PyValue) : Bool :=
  !(match v with
    | .vInt _ => true
    | .vFloat _ => true
    | .vBool _ => true
    | .vStr _ => true
    | .vComplex _ _ => true
    | _ => false)

/-- The `Declare` descriptor: one declared attribute on a host class. -/
structure Declare where
  _name : String
  _private_name : String
  _default : PyValue
  _validator : Option Validator
  _watcher : Option Watcher
  _copy_default : Bool

/-- `Declare.__init__(default, *, validate=None, watch=None)`. -/
def Declare.init (default : PyValue) (validate : Option Validator)
    (watch : Option Watcher) : Declare :=
  { _name := ""
    _private_name := ""
    _default := default
    _validator := validate
    _watcher := watch
    _copy_default := copyDefaultOf default }

/-- `Declare.copy`: a fresh descriptor built by the constructor from the
current default, validator and watcher. -/
def Declare.copy (d : Declare) : Declare :=
  Declare.init d._default d._validator d._watcher

/-- `Declare.__call__(default=_NO_VALUE, *, validate=None, watch=None)`:
copy the descriptor, then assign each supplied argument directly onto the
copy.  `none` models an omitted argument (`_NO_VALUE` / `None`). -/
def Declare.call (d : Declare) (default : Option PyValue)
    (validate : Option Validator) (watch : Option Watcher) : Declare :=
  let c := d.copy
  let c :=
    match default with
    | some v => { c with _default := v }
    | none => c
  let c :=
    match validate with
    | some f => { c with _validator := some f }
    | none => c
  match watch with
  | some w => { c with _watcher := some w }
  | none => c

/-- The storage key `f"__declare_private_{name}"` from `__set_name__`. -/
def privateNameOf (name : String) : String :=
  "__declare_private_" ++ name

/-- `Declare.__set_name__(owner, name)`: record the field name and derive the
private storage key. -/
def Declare.setName (d : Declare) (name : String) : Declare :=
  { d with _name := name, _private_name := privateNameOf name }

/-- `Declare.__get__` on an instance: if the private slot is unset,
materialize the default (a `copy.copy` when `_copy_default`, the default
itself otherwise), store it and return it; otherwise return the stored value
directly.  Returns (result, updated instance, updated heap). -/
def Declare.get (d : Declare) (obj : Obj) (h : Heap) : PyValue × Obj × Heap :=
  match dictGet obj.dict d._private_name with
  | some v => (v, obj, h)
  | none =>
      let vh := if d._copy_default then pyCopy h d._default else (d._default, h)
      (vh.1, ⟨dictSet obj.dict d._private_name vh.1⟩, vh.2)

/-- `v if self._validator is None else self._validator(obj, v)`. -/
def applyValidator (v : Option Validator) (obj : Obj) (x : PyValue) : PyValue :=
  match v with
  | none => x
  | some f => f obj x

/-- The outcome of `Declare.__set__`: the updated instance and heap, the list
of watcher invocations performed (instance, old value, new value), and the
exception raised by the watcher, if any. -/
structure SetResult where
  obj : Obj
  heap : Heap
  calls : List (Obj × PyValue × PyValue)
  err : Option PyErr
deriving DecidableEq, Repr

/-- `Declare.__set__` for a descriptor bound to its host class: with a
watcher, `getattr(obj, self._name, None)` goes through this data descriptor's
own `__get__` (the normal get path), then the validated value is stored and
the watcher invoked iff old and new differ; without a watcher the validated
value is stored with no read. -/
def Declare.set (d : Declare) (obj : Obj) (h : Heap) (value : PyValue) :
    SetResult :=
  match d._watcher with
  | some w =>
      let g := d.get obj h
      let newValue := applyValidator d._validator g.2.1 value
      let obj2 : Obj := ⟨dictSet g.2.1.dict d._private_name newValue⟩
      if pyEq g.2.2 g.1 newValue then
        ⟨obj2, g.2.2, [], none⟩
      else
        ⟨obj2, g.2.2, [(obj2, g.1, newValue)], w obj2 g.1 newValue⟩
  | none =>
      ⟨⟨dictSet obj.dict d._private_name (applyValidator d._validator obj value)⟩,
        h, [], none⟩

/-- `Declare.__set__` for a descriptor on which `__set_name__` has not run:
the host class has no attribute named `self._name` (the empty string), so
`getattr(obj, self._name, None)` is a plain instance-dict lookup defaulting
to `None`. -/
def Declare.setUnbound (d : Declare) (obj : Obj) (h : Heap) (value : PyValue) :
    SetResult :=
  match d._watcher with
  | some w =>
      let current := (dictGet obj.dict d._name).getD .vNone
      let newValue := applyValidator d._validator obj value
      let obj2 : Obj := ⟨dictSet obj.dict d._private_name newValue⟩
      if pyEq h current newValue then
        ⟨obj2, h, [], none⟩
      else
        ⟨obj2, h, [(obj2, current, newValue)], w obj2 current newValue⟩
  | none =>
      ⟨⟨dictSet obj.dict d._private_name (applyValidator d._validator obj value)⟩,
        h, [], none⟩

/-- `ValidateDecorator.__call__(method)`: fail if a validator is already
bound, otherwise register the method and hand it back.  The updated
descriptor is returned explicitly (the Python code mutates it in place). -/
def validateBind (d : Declare) (method : Validator) :
    Except PyErr (Declare × Validator) :=
  match d._validator with
  | some _ => .error .declareError
  | none => .ok ({ d with _validator := some method }, method)

/-- `WatchDecorator.__call__(method)`: fail if a watcher is already bound,
otherwise register the method and hand it back. -/
def watchBind (d : Declare) (method : Watcher) :
    Except PyErr (Declare × Watcher) :=
  match d._watcher with
  | some _ => .error .declareError
  | none => .ok ({ d with _watcher := some method }, method)

namespace declare

/-- `Int: Type[Declare[int]] = Declare` from `__init__.py`: the alias is the
`Declare` constructor itself. -/
def Int : PyValue → Option Validator → Option Watcher → Declare := Declare.init

/-- `Float: Type[Declare[float]] = Declare`. -/
def Float : PyValue → Option Validator → Option Watcher → Declare := Declare.init

/-- `Bool: Type[Declare[bool]] = Declare`. -/
def Bool : PyValue → Option Validator → Option Watcher → Declare := Declare.init

/-- `Str: Type[Declare[str]] = Declare`. -/
def Str : PyValue → Option Validator → Option Watcher → Declare := Declare.init

/-- `Bytes: Type[Declare[bytes]] = Declare`. -/
def Bytes : PyValue → Option Validator → Option Watcher → Declare := Declare.init

end declare

/-- A clamping validator, `max(0, min(255, x))` on integers, from the
`Color` example and the spec's clamping scenario. -/
def clampV : Validator := fun _ x =>
  match x with
  | .vInt n => .vInt (max 0 (min 255 n))
  | y => y

/-- A watcher that records nothing and raises nothing. -/
def watch0 : Watcher := fun _ _ _ => none

/-- A watcher that always raises. -/
def watchRaise : Watcher := fun _ _ _ => some (.raised 1)

/-- An integer attribute with the clamping validator, bound under name `c`. -/
def dClamp : Declare := (Declare.init (.vInt 0) (some clampV) none).setName "c"

/-- A watched integer attribute whose watcher always raises, bound under
name `value`. -/
def dRaise : Declare := (Declare.init (.vInt 0) none (some watchRaise)).setName "value"

/-- A list-valued attribute (default: the heap object at address 0), bound
under name `things`. -/
def dList : Declare := (Declare.init (.vRef 0) none none).setName "things"

/-- The heap address a reference points to (0 for non-references). -/
def refAddr (v : PyValue) : Nat :=
  match v with
  | .vRef a => a
  | _ => 0

theorem dictGet_dictSet_self (d : List (String × PyValue)) (k : String)
    (v : PyValue) : dictGet (dictSet d k v) k = some v := by
  induction d with
  | nil => simp [dictSet, dictGet]
  | cons p rest ih =>
      obtain ⟨k', v'⟩ := p
      by_cases hk : k' = k
      · simp [dictSet, dictGet, hk]
      · simp [dictSet, dictGet, hk, ih]

theorem pyEq_refl (h : Heap) (v : PyValue) : pyEq h v v = true := by
  cases v <;> simp [pyEq]

theorem listGet_snoc_len (l : List (List PyValue)) (c : List PyValue) :
    listGet ⟨l ++ [c]⟩ l.length = c := by
  simp [listGet, List.getD_eq_getElem?_getD]

theorem listGet_copy_self (h : Heap) (a : Nat) :
    listGet ⟨h.lists ++ [listGet h a]⟩ a = listGet h a := by
  by_cases hlt : a < h.lists.length
  · simp [listGet, List.getD_eq_getElem?_getD, List.getElem?_append_left hlt]
  · have hout : listGet h a = [] := by
      simp [listGet, List.getD_eq_getElem?_getD,
        List.getElem?_eq_none (by omega : h.lists.length ≤ a)]
    rw [hout]
    by_cases heq : a = h.lists.length
    · subst heq
      exact listGet_snoc_len h.lists []
    · have h2 : (h.lists ++ ([[]] : List (List PyValue))).length ≤ a := by
        simp
        omega
      simp [listGet, List.getD_eq_getElem?_getD, List.getElem?_eq_none h2]

theorem listGet_heapAppend_ne (h : Heap) (a b : Nat) (x : PyValue)
    (hab : a ≠ b) : listGet (heapAppend h a x) b = listGet h b := by
  simp [heapAppend, listGet, List.getD_eq_getElem?_getD,
    List.getElem?_set_ne hab]

theorem pyEq_pyCopy (h : Heap) (v : PyValue) :
    pyEq (pyCopy h v).2 (pyCopy h v).1 v = true := by
  cases v <;> simp [pyCopy, pyEq, listGet_snoc_len, listGet_copy_self]

/-- The watcher branch of `Declare.__set__`, written out: the current value
is read through the descriptor's own get path, the validated value is
stored on top of the instance state produced by that read, and the watcher
runs iff old and new differ. -/
theorem set_watcher_eq (d : Declare) (w : Watcher) (obj : Obj) (h : Heap)
    (v : PyValue) (hw : d._watcher = some w) :
    d.set obj h v =
      (let g := d.get obj h
       let fv := applyValidator d._validator g.2.1 v
       let obj2 : Obj := ⟨dictSet g.2.1.dict d._private_name fv⟩
       if pyEq g.2.2 g.1 fv then ⟨obj2, g.2.2, [], none⟩
       else ⟨obj2, g.2.2, [(obj2, g.1, fv)], w obj2 g.1 fv⟩) := by
  simp only [Declare.set, hw]

/-- C2: with a validator but no watcher bound, `set` stores the validated
value under the storage key with no read of the current or default value
(the result does not depend on the default), and a subsequent `get` returns
exactly the stored value. -/
theorem C2_unwatched_set (d : Declare) (obj : Obj) (h : Heap) (v : PyValue)
    (hw : d._watcher = none) :
    d.set obj h v =
      ⟨⟨dictSet obj.dict d._private_name (applyValidator d._validator obj v)⟩,
        h, [], none⟩ ∧
    (∀ dflt : PyValue, ({ d with _default := dflt }).set obj h v = d.set obj h v) ∧
    (d.get (d.set obj h v).obj (d.set obj h v).heap).1 =
      applyValidator d._validator obj v := by
  have hset : d.set obj h v =
      ⟨⟨dictSet obj.dict d._private_name (applyValidator d._validator obj v)⟩,
        h, [], none⟩ := by
    simp [Declare.set, hw]
  refine ⟨hset, ?_, ?_⟩
  · intro dflt
    simp [Declare.set, hw]
  · rw [hset]
    simp [Declare.get, dictGet_dictSet_self]

/-- C2 witness: clamping to 0–255 with default 0: writing 300 then reading
yields 255; writing -5 then reading yields 0. -/
theorem C2_unwatched_set_witness :
    (dClamp.get (dClamp.set ⟨[]⟩ ⟨[]⟩ (.vInt 300)).obj
        (dClamp.set ⟨[]⟩ ⟨[]⟩ (.vInt 300)).heap).1 = .vInt 255 ∧
    (dClamp.get (dClamp.set ⟨[]⟩ ⟨[]⟩ (.vInt (-5))).obj
        (dClamp.set ⟨[]⟩ ⟨[]⟩ (.vInt (-5))).heap).1 = .vInt 0 := by
  constructor
  · rw [(C2_unwatched_set dClamp ⟨[]⟩ ⟨[]⟩ (.vInt 300) rfl).2.2]
    decide
  · rw [(C2_unwatched_set dClamp ⟨[]⟩ ⟨[]⟩ (.vInt (-5)) rfl).2.2]
    decide

/-- C5: binding a second validator (resp. watcher) fails with the
configuration error; binding to an attribute that has none registers the
method and returns it unchanged, so the same function can be bound to
several sibling attributes that each had none. -/
theorem C5_duplicate_binding (d : Declare) (f : Validator) (w : Watcher) :
    (∀ m : Validator, d._validator = some f →
        validateBind d m = .error .declareError) ∧
    (∀ m : Validator, d._validator = none →
        validateBind d m = .ok ({ d with _validator := some m }, m)) ∧
    (∀ m : Watcher, d._watcher = some w →
        watchBind d m = .error .declareError) ∧
    (∀ m : Watcher, d._watcher = none →
        watchBind d m = .ok ({ d with _watcher := some m }, m)) ∧
    (∀ (d2 : Declare) (m : Validator), d._validator = none →
        d2._validator = none →
        validateBind d m = .ok ({ d with _validator := some m }, m) ∧
        validateBind d2 m = .ok ({ d2 with _validator := some m }, m)) := by
  refine ⟨?_, ?_, ?_, ?_, ?_⟩
  · intro m h1
    simp [validateBind, h1]
  · intro m h1
    simp [validateBind, h1]
  · intro m h1
    simp [watchBind, h1]
  · intro m h1
    simp [watchBind, h1]
  · intro d2 m h1 h2
    exact ⟨by simp [validateBind, h1], by simp [validateBind, h2]⟩

/-- C5 witness: a second validator (resp. watcher) is rejected on a concrete
attribute; a first one is registered and returned; one function binds to two
sibling attributes. -/
theorem C5_duplicate_binding_witness :
    validateBind (Declare.init (.vInt 0) (some clampV) none) clampV =
      .error .declareError ∧
    validateBind (Declare.init (.vInt 0) none none) clampV =
      .ok ({ Declare.init (.vInt 0) none none with _validator := some clampV },
           clampV) ∧
    watchBind (Declare.init (.vInt 0) none (some watch0)) watch0 =
      .error .declareError ∧
    watchBind (Declare.init (.vInt 0) none none) watch0 =
      .ok ({ Declare.init (.vInt 0) none none with _watcher := some watch0 },
           watch0) ∧
    validateBind (Declare.init (.vInt 1) none none) clampV =
      .ok ({ Declare.init (.vInt 1) none none with _validator := some clampV },
           clampV) := by
  refine ⟨(C5_duplicate_binding _ clampV watch0).1 clampV rfl,
          (C5_duplicate_binding (Declare.init (.vInt 0) none none) clampV
            watch0).2.1 clampV rfl,
          (C5_duplicate_binding _ clampV watch0).2.2.1 watch0 rfl,
          (C5_duplicate_binding (Declare.init (.vInt 0) none none) clampV
            watch0).2.2.2.1 watch0 rfl,
          ((C5_duplicate_binding (Declare.init (.vInt 0) none none) clampV
            watch0).2.2.2.2 (Declare.init (.vInt 1) none none) clampV rfl
            rfl).2⟩

/-- C8: the storage key is `"__declare_private_" ++ name`, computed by the
name-binding step; it never equals the field name itself, and distinct field
names yield distinct storage keys. -/
theorem C8_storage_key (d : Declare) (n m : String) :
    (d.setName n)._private_name = privateNameOf n ∧
    privateNameOf n = "__declare_private_" ++ n ∧
    privateNameOf n ≠ n ∧
    (privateNameOf n = privateNameOf m → n = m) := by
  refine ⟨rfl, rfl, ?_, ?_⟩
  · intro hcontra
    have hlen := congrArg String.length hcontra
    rw [privateNameOf, String.length_append] at hlen
    have h18 : ("__declare_private_" : String).length = 18 := rfl
    omega
  · intro heq
    have hdata := congrArg String.data heq
    rw [privateNameOf, privateNameOf, String.data_append, String.data_append]
      at hdata
    have hnm := List.append_cancel_left hdata
    cases n
    cases m
    simp only at hnm
    rw [hnm]

/-- C8 witness: the storage key of the field named `value`. -/
theorem C8_storage_key_witness :
    ((Declare.init .vNone none none).setName "value")._private_name =
      privateNameOf "value" ∧
    privateNameOf "value" = "__declare_private_" ++ "value" ∧
    privateNameOf "value" ≠ "value" ∧
    ("value" : String) = "value" := by
  have h := C8_storage_key (Declare.init .vNone none none) "value" "value"
  exact ⟨h.1, h.2.1, h.2.2.1, h.2.2.2 rfl⟩

/-- C9: two descriptors on which the name-binding step has not run both use
the storage slot derived from the empty field name, so a value set through
one is returned by a subsequent get through the other. -/
theorem C9_unbound_alias (dflt1 dflt2 : PyValue) (w1 : Option Watcher)
    (val2 : Option Validator) (w2 : Option Watcher) (obj : Obj) (h : Heap)
    (v : PyValue) :
    (Declare.init dflt1 none w1)._private_name = "" ∧
    (Declare.init dflt2 val2 w2)._private_name = "" ∧
    (Declare.init dflt2 val2 w2).get
        ((Declare.init dflt1 none w1).setUnbound obj h v).obj
        ((Declare.init dflt1 none w1).setUnbound obj h v).heap =
      (v, ((Declare.init dflt1 none w1).setUnbound obj h v).obj,
          ((Declare.init dflt1 none w1).setUnbound obj h v).heap) := by
  refine ⟨rfl, rfl, ?_⟩
  cases w1 with
  | none =>
      simp [Declare.setUnbound, Declare.get, Declare.init, applyValidator,
        dictGet_dictSet_self]
  | some w =>
      simp only [Declare.setUnbound, Declare.init, applyValidator]
      split <;>
        simp [Declare.get, dictGet_dictSet_self]

/-- C10: the aliases `Int`, `Float`, `Bool`, `Str`, `Bytes` are the
`Declare` constructor itself; a field declared through an alias behaves
exactly like one declared with `Declare`, and an unwatched set never raises,
whatever the kind of the value. -/
theorem C10_aliases :
    declare.Int = Declare.init ∧ declare.Float = Declare.init ∧
    declare.Bool = Declare.init ∧ declare.Str = Declare.init ∧
    declare.Bytes = Declare.init ∧
    (∀ (dflt : PyValue) (n : String) (obj : Obj) (h : Heap) (v : PyValue),
      ((declare.Int dflt none none).setName n).get obj h =
        ((Declare.init dflt none none).setName n).get obj h ∧
      ((declare.Int dflt none none).setName n).set obj h v =
        ((Declare.init dflt none none).setName n).set obj h v ∧
      (((declare.Int dflt none none).setName n).set obj h v).err = none) :=
  ⟨rfl, rfl, rfl, rfl, rfl, fun _ _ _ _ _ => ⟨rfl, rfl, rfl⟩⟩

/-- C1: with a watcher bound, `set` first reads the current value through the
normal get path (materializing the default if unset), stores the validated
value, and invokes the watcher with (instance, old, new) iff old and new
differ; in particular, on a watched field with default 0, writing 0 invokes
no watcher, writing 1 invokes it once with (0, 1), writing 1 again invokes
nothing, and writing 2 invokes it once with (1, 2). -/
theorem C1_watched_set :
    (∀ (d : Declare) (w : Watcher) (obj : Obj) (h : Heap) (v : PyValue),
      d._watcher = some w →
      d.set obj h v =
        (let g := d.get obj h
         let fv := applyValidator d._validator g.2.1 v
         let obj2 : Obj := ⟨dictSet g.2.1.dict d._private_name fv⟩
         if pyEq g.2.2 g.1 fv then ⟨obj2, g.2.2, [], none⟩
         else ⟨obj2, g.2.2, [(obj2, g.1, fv)], w obj2 g.1 fv⟩)) ∧
    (∀ w : Watcher,
      let d := (Declare.init (.vInt 0) none (some w)).setName "value"
      let s1 := d.set ⟨[]⟩ ⟨[]⟩ (.vInt 0)
      let s2 := d.set s1.obj s1.heap (.vInt 1)
      let s3 := d.set s2.obj s2.heap (.vInt 1)
      let s4 := d.set s3.obj s3.heap (.vInt 2)
      s1.calls = [] ∧
      s2.calls.map (fun c => (c.2.1, c.2.2)) = [(.vInt 0, .vInt 1)] ∧
      s3.calls = [] ∧
      s4.calls.map (fun c => (c.2.1, c.2.2)) = [(.vInt 1, .vInt 2)]) := by
  constructor
  · intro d w obj h v hw
    exact set_watcher_eq d w obj h v hw
  · intro w
    exact ⟨rfl, rfl, rfl, rfl⟩

/-- C1 witness: the watcher branch of `set` at a concrete watched field. -/
theorem C1_watched_set_witness :
    ((Declare.init (.vInt 0) none (some watch0)).setName "value")._watcher =
      some watch0 ∧
    ((Declare.init (.vInt 0) none (some watch0)).setName "value").set
        ⟨[]⟩ ⟨[]⟩ (.vInt 1) =
      (let d := (Declare.init (.vInt 0) none (some watch0)).setName "value"
       let g := d.get ⟨[]⟩ ⟨[]⟩
       let fv := applyValidator d._validator g.2.1 (.vInt 1)
       let obj2 : Obj := ⟨dictSet g.2.1.dict d._private_name fv⟩
       if pyEq g.2.2 g.1 fv then ⟨obj2, g.2.2, [], none⟩
       else ⟨obj2, g.2.2, [(obj2, g.1, fv)], watch0 obj2 g.1 fv⟩) :=
  ⟨rfl, C1_watched_set.1 _ watch0 ⟨[]⟩ ⟨[]⟩ (.vInt 1) rfl⟩

/-- C3: the first get on an instance with no stored value stores the default
(a copy when the copy flag is set, the default itself otherwise) and returns
a value equal to the default; a get on an instance with a stored value
returns it directly with no state change; and for a compound default, two
fresh instances receive copies at distinct heap addresses, so a mutation
through one instance's value is not observed through the other's. -/
theorem C3_lazy_default :
    (∀ (d : Declare) (obj : Obj) (h : Heap),
      dictGet obj.dict d._private_name = none →
      pyEq (d.get obj h).2.2 (d.get obj h).1 d._default = true ∧
      dictGet (d.get obj h).2.1.dict d._private_name =
        some (d.get obj h).1) ∧
    (∀ (d : Declare) (obj : Obj) (h : Heap) (v : PyValue),
      dictGet obj.dict d._private_name = some v →
      d.get obj h = (v, obj, h)) ∧
    (∀ (d : Declare) (a : Nat) (objA objB : Obj) (h : Heap) (x : PyValue),
      d._default = .vRef a → d._copy_default = true →
      dictGet objA.dict d._private_name = none →
      dictGet objB.dict d._private_name = none →
      (d.get objA h).1 = .vRef h.lists.length ∧
      (d.get objB (d.get objA h).2.2).1 = .vRef (h.lists.length + 1) ∧
      h.lists.length ≠ h.lists.length + 1 ∧
      listGet (d.get objB (d.get objA h).2.2).2.2 (h.lists.length + 1) =
        listGet h a ∧
      listGet
          (heapAppend (d.get objB (d.get objA h).2.2).2.2 h.lists.length x)
          (h.lists.length + 1) =
        listGet (d.get objB (d.get objA h).2.2).2.2
          (h.lists.length + 1)) := by
  refine ⟨?_, ?_, ?_⟩
  · intro d obj h hnone
    cases hc : d._copy_default
    · have hget : d.get obj h =
          (d._default, ⟨dictSet obj.dict d._private_name d._default⟩, h) := by
        simp [Declare.get, hnone, hc]
      rw [hget]
      exact ⟨pyEq_refl h d._default, dictGet_dictSet_self _ _ _⟩
    · have hget : d.get obj h =
          ((pyCopy h d._default).1,
           ⟨dictSet obj.dict d._private_name (pyCopy h d._default).1⟩,
           (pyCopy h d._default).2) := by
        simp [Declare.get, hnone, hc]
      rw [hget]
      exact ⟨pyEq_pyCopy h d._default, dictGet_dictSet_self _ _ _⟩
  · intro d obj h v hsome
    simp [Declare.get, hsome]
  · intro d a objA objB h x hd hc hA hB
    have hgA : d.get objA h =
        (.vRef h.lists.length,
         ⟨dictSet objA.dict d._private_name (.vRef h.lists.length)⟩,
         ⟨h.lists ++ [listGet h a]⟩) := by
      simp [Declare.get, hA, hc, hd, pyCopy]
    have hgB : d.get objB (d.get objA h).2.2 =
        (.vRef (h.lists.length + 1),
         ⟨dictSet objB.dict d._private_name (.vRef (h.lists.length + 1))⟩,
         ⟨(h.lists ++ [listGet h a]) ++ [listGet h a]⟩) := by
      rw [hgA]
      simp [Declare.get, hB, hc, hd, pyCopy, listGet_copy_self]
    have hlen : h.lists.length + 1 = (h.lists ++ [listGet h a]).length := by
      simp
    refine ⟨by rw [hgA], by rw [hgB], by omega, ?_, ?_⟩
    · rw [hgB]
      rw [hlen]
      exact listGet_snoc_len _ _
    · rw [hgB]
      exact listGet_heapAppend_ne _ _ _ _ (by omega)

/-- C3 witness: a list-valued attribute with default at heap address 0 on
fresh instances; the materialized copies live at addresses 1 and 2 and a
mutation of the first is invisible through the second. -/
theorem C3_lazy_default_witness :
    (pyEq (dList.get ⟨[]⟩ ⟨[[]]⟩).2.2 (dList.get ⟨[]⟩ ⟨[[]]⟩).1
        dList._default = true ∧
     dictGet (dList.get ⟨[]⟩ ⟨[[]]⟩).2.1.dict dList._private_name =
       some (dList.get ⟨[]⟩ ⟨[[]]⟩).1) ∧
    dList.get ⟨[(privateNameOf "things", .vInt 3)]⟩ ⟨[[]]⟩ =
      (.vInt 3, ⟨[(privateNameOf "things", .vInt 3)]⟩, ⟨[[]]⟩) ∧
    ((dList.get ⟨[]⟩ ⟨[[]]⟩).1 = .vRef 1 ∧
     (dList.get ⟨[]⟩ (dList.get ⟨[]⟩ ⟨[[]]⟩).2.2).1 = .vRef 2 ∧
     (1 : Nat) ≠ 2 ∧
     listGet (dList.get ⟨[]⟩ (dList.get ⟨[]⟩ ⟨[[]]⟩).2.2).2.2 2 =
       listGet ⟨[[]]⟩ 0 ∧
     listGet
         (heapAppend (dList.get ⟨[]⟩ (dList.get ⟨[]⟩ ⟨[[]]⟩).2.2).2.2 1
           (.vInt 7)) 2 =
       listGet (dList.get ⟨[]⟩ (dList.get ⟨[]⟩ ⟨[[]]⟩).2.2).2.2 2) :=
  ⟨C3_lazy_default.1 dList ⟨[]⟩ ⟨[[]]⟩ rfl,
   C3_lazy_default.2.1 dList ⟨[(privateNameOf "things", .vInt 3)]⟩ ⟨[[]]⟩
     (.vInt 3) rfl,
   C3_lazy_default.2.2 dList 0 ⟨[]⟩ ⟨[]⟩ ⟨[[]]⟩ (.vInt 7) rfl rfl rfl rfl⟩

/-- C4 counterexample: a byte-string default is marked as requiring a
per-instance copy (`bytes` is missing from the elementary-kind tuple in
`Declare.__init__`), contradicting the claim that it is marked as not
requiring one. -/
theorem C4_counterexample :
    ¬ ((Declare.init (.vBytes [98, 97, 114]) none none)._copy_default =
        false) := by
  decide

/-- C4 (amended): the copy flag is false exactly for integer, float,
boolean, text-string and complex defaults; byte-string defaults — like
`None`, lists and every other kind — are marked as requiring a copy, though
copying a byte string returns the value itself, so behavior is unaffected. -/
theorem C4_copy_flag :
    (∀ (n : Int) (va : Option Validator) (w : Option Watcher),
        (Declare.init (.vInt n) va w)._copy_default = false) ∧
    (∀ (x : Rat) (va : Option Validator) (w : Option Watcher),
        (Declare.init (.vFloat x) va w)._copy_default = false) ∧
    (∀ (b : Bool) (va : Option Validator) (w : Option Watcher),
        (Declare.init (.vBool b) va w)._copy_default = false) ∧
    (∀ (s : String) (va : Option Validator) (w : Option Watcher),
        (Declare.init (.vStr s) va w)._copy_default = false) ∧
    (∀ (re im : Rat) (va : Option Validator) (w : Option Watcher),
        (Declare.init (.vComplex re im) va w)._copy_default = false) ∧
    (∀ (bs : List Nat) (va : Option Validator) (w : Option Watcher),
        (Declare.init (.vBytes bs) va w)._copy_default = true ∧
        ∀ h : Heap, pyCopy h (.vBytes bs) = (.vBytes bs, h)) ∧
    (∀ (a : Nat) (va : Option Validator) (w : Option Watcher),
        (Declare.init (.vRef a) va w)._copy_default = true) ∧
    (∀ (va : Option Validator) (w : Option Watcher),
        (Declare.init .vNone va w)._copy_default = true) :=
  ⟨fun _ _ _ => rfl, fun _ _ _ => rfl, fun _ _ _ => rfl, fun _ _ _ => rfl,
   fun _ _ _ _ => rfl, fun _ _ _ => ⟨rfl, fun _ => rfl⟩, fun _ _ _ => rfl,
   fun _ _ => rfl⟩

/-- C6: during a watched set, the new value is stored before the watcher is
invoked, so when the watcher raises, the exception surfaces from `set` but
the new value is durably stored and a subsequent get returns it. -/
theorem C6_store_before_notify (d : Declare) (w : Watcher) (obj : Obj)
    (h : Heap) (v : PyValue) (e : PyErr)
    (hw : d._watcher = some w)
    (he : (d.set obj h v).err = some e) :
    dictGet (d.set obj h v).obj.dict d._private_name =
      some (applyValidator d._validator (d.get obj h).2.1 v) ∧
    (d.get (d.set obj h v).obj (d.set obj h v).heap).1 =
      applyValidator d._validator (d.get obj h).2.1 v := by
  rw [set_watcher_eq d w obj h v hw] at he ⊢
  cases hpe : pyEq (d.get obj h).2.2 (d.get obj h).1
      (applyValidator d._validator (d.get obj h).2.1 v) with
  | true =>
      simp [hpe] at he
  | false =>
      simp only [hpe, Bool.false_eq_true, if_false] at he ⊢
      exact ⟨dictGet_dictSet_self _ _ _,
        by simp [Declare.get, dictGet_dictSet_self]⟩

/-- C6 witness: a raising watcher on a watched integer field: setting 1
surfaces the exception while the stored value and a subsequent get are 1. -/
theorem C6_store_before_notify_witness :
    (dRaise.set ⟨[]⟩ ⟨[]⟩ (.vInt 1)).err = some (.raised 1) ∧
    dictGet (dRaise.set ⟨[]⟩ ⟨[]⟩ (.vInt 1)).obj.dict dRaise._private_name =
      some (.vInt 1) ∧
    (dRaise.get (dRaise.set ⟨[]⟩ ⟨[]⟩ (.vInt 1)).obj
        (dRaise.set ⟨[]⟩ ⟨[]⟩ (.vInt 1)).heap).1 = .vInt 1 := by
  have h := C6_store_before_notify dRaise watchRaise ⟨[]⟩ ⟨[]⟩ (.vInt 1)
    (.raised 1) rfl (by decide)
  exact ⟨by decide, h.1, h.2⟩

/-- C7 counterexample: overriding an integer-kind template's default with a
list via `__call__` keeps the template's copy flag, so the resulting
descriptor shares one default list across instances; a directly constructed
descriptor copies it.  After materializing the default on two fresh
instances and appending 7 through the first instance's value, the second
instance's list contents differ between the two descriptors. -/
theorem C7_counterexample :
    (let t := ((Declare.init (.vInt 0) none none).call (some (.vRef 0)) none
        none).setName "x"
     let gA := t.get ⟨[]⟩ ⟨[[]]⟩
     let gB := t.get ⟨[]⟩ gA.2.2
     listGet (heapAppend gB.2.2 (refAddr gA.1) (.vInt 7)) (refAddr gB.1)) ≠
    (let tD := (Declare.init (.vRef 0) none none).setName "x"
     let gA := tD.get ⟨[]⟩ ⟨[[]]⟩
     let gB := tD.get ⟨[]⟩ gA.2.2
     listGet (heapAppend gB.2.2 (refAddr gA.1) (.vInt 7)) (refAddr gB.1)) := by
  decide

/-- C7 (amended): `__call__` returns a new descriptor whose supplied fields
override and whose omitted fields retain the original's, but its copy flag
is computed from the original default; the result equals a directly
constructed descriptor whenever the new default's copy classification
matches the original default's. -/
theorem C7_override (t : Declare) (dOpt : Option PyValue)
    (vOpt : Option Validator) (wOpt : Option Watcher) :
    (t.call dOpt vOpt wOpt)._default = dOpt.getD t._default ∧
    (t.call dOpt vOpt wOpt)._validator = vOpt.or t._validator ∧
    (t.call dOpt vOpt wOpt)._watcher = wOpt.or t._watcher ∧
    (t.call dOpt vOpt wOpt)._copy_default = copyDefaultOf t._default ∧
    (copyDefaultOf (dOpt.getD t._default) = copyDefaultOf t._default →
      t.call dOpt vOpt wOpt =
        Declare.init (dOpt.getD t._default) (vOpt.or t._validator)
          (wOpt.or t._watcher)) := by
  cases dOpt <;> cases vOpt <;> cases wOpt <;>
    refine ⟨rfl, rfl, rfl, rfl, fun hc => ?_⟩ <;>
      simp only [Declare.call, Declare.copy, Declare.init, Option.getD,
        Option.or] at hc ⊢ <;>
        rw [hc]

/-- C7 witness: overriding an integer default with another integer yields
exactly the directly constructed descriptor. -/
theorem C7_override_witness :
    ((Declare.init (.vInt 5) none none).call (some (.vInt 9)) none
        none)._default = .vInt 9 ∧
    (Declare.init (.vInt 5) none none).call (some (.vInt 9)) none none =
      Declare.init (.vInt 9) none none := by
  have h := C7_override (Declare.init (.vInt 5) none none) (some (.vInt 9))
    none none
  exact ⟨h.1, h.2.2.2.2 rfl⟩

end DeclareSpec
